import Mathlib

/-!
# Rocket gRPC service

A shallow embedding of the request handlers of `internal/transport/grpc/handler.go`
and of the store of `internal/db/db.go`.

* Go's `(value, error)` results are pairs whose second component is an `Option GoError`
  (`none` is the `nil` error).
* Stateful collaborators (the `RocketService` behind the handler, the SQL database behind
  the store) are state transformers over an arbitrary state type.
* Every function returns, next to its result and the final state, the trace of what it
  did: the lines it logged and the collaborator operations it invoked, in order.
* A nil pointer dereference is the outcome `Outcome.nilDeref`.
* The UUID parsers (`uuid.Parse` of google/uuid in the handler, `uuid.FromString` of
  satori/go.uuid in the store) are library code; the embedding takes them as parameters.
-/

/-! ## Errors and gRPC statuses -/

/-- Status codes of `google.golang.org/grpc/codes`. -/
inductive Code
  | OK | Canceled | Unknown | InvalidArgument | DeadlineExceeded | NotFound | AlreadyExists
  | PermissionDenied | ResourceExhausted | FailedPrecondition | Aborted | OutOfRange
  | Unimplemented | Internal | Unavailable | DataLoss | Unauthenticated
  deriving DecidableEq, Repr

/-- Name of a code as `Code.String()` prints it. -/
def Code.name : Code → String
  | .OK => "OK"
  | .Canceled => "Canceled"
  | .Unknown => "Unknown"
  | .InvalidArgument => "InvalidArgument"
  | .DeadlineExceeded => "DeadlineExceeded"
  | .NotFound => "NotFound"
  | .AlreadyExists => "AlreadyExists"
  | .PermissionDenied => "PermissionDenied"
  | .ResourceExhausted => "ResourceExhausted"
  | .FailedPrecondition => "FailedPrecondition"
  | .Aborted => "Aborted"
  | .OutOfRange => "OutOfRange"
  | .Unimplemented => "Unimplemented"
  | .Internal => "Internal"
  | .Unavailable => "Unavailable"
  | .DataLoss => "DataLoss"
  | .Unauthenticated => "Unauthenticated"

/-- One entry of `errdetails.BadRequest.FieldViolations`. -/
structure FieldViolation where
  Field : String
  Description : String
  deriving DecidableEq, Repr

/-- Detail messages attached to a status; the handlers only ever attach
`errdetails.BadRequest`. -/
inductive Detail
  | BadRequest (FieldViolations : List FieldViolation)
  deriving DecidableEq, Repr

/-- A gRPC status: code, message and the attached details. -/
structure Status where
  code : Code
  message : String
  details : List Detail
  deriving DecidableEq, Repr

/-- A non-nil Go `error`: either an error carrying a gRPC status, or any other error,
identified by its message (`errors.New`, driver and parser errors). -/
inductive GoError
  | plain (msg : String)
  | status (s : Status)
  deriving DecidableEq, Repr

/-- The text `err.Error()` returns, as `%v` prints it in the log lines. -/
def GoError.Error : GoError → String
  | .plain msg => msg
  | .status s => "rpc error: code = " ++ s.code.name ++ " desc = " ++ s.message

/-- The call `status.New(c, msg)`: a status without details. -/
def status.New (c : Code) (msg : String) : Status :=
  ⟨c, msg, []⟩

/-- The method `(*Status).Err()`: nil for code OK, otherwise an error carrying the status. -/
def Status.Err (s : Status) : Option GoError :=
  if s.code = Code.OK then none else some (GoError.status s)

/-- The call `status.Error(c, msg)`, which is `status.New(c, msg).Err()`. -/
def status.Error (c : Code) (msg : String) : Option GoError :=
  (status.New c msg).Err

/-- The method `(*Status).WithDetails(details...)`: refused for a status with code OK,
otherwise the details are appended (marshalling a `BadRequest` message does not fail). -/
def Status.WithDetails (s : Status) (details : List Detail) : Except GoError Status :=
  if s.code = Code.OK then
    .error (GoError.plain "no error details for status with code OK")
  else
    .ok ⟨s.code, s.message, s.details ++ details⟩

/-! ## Data model -/

/-- A UUID value as the parsers return it: its sixteen bytes. -/
structure UUID where
  bytes : List Nat
  deriving DecidableEq, Repr

/-- Modelled from the spec: the struct `rocket.Rocket` of `internal/rocket`, whose
declaration is not among the sources. §3 gives its three string fields; the field names
are the ones `handler.go` and `db.go` use (`Type_` stands for `Type`, which Lean reserves). -/
structure Rocket where
  ID : String
  Name : String
  Type_ : String
  deriving DecidableEq, Repr

/-- The zero value `rocket.Rocket{}`. -/
def Rocket.zero : Rocket :=
  ⟨"", "", ""⟩

/-- The protobuf message `rkt.Rocket` (`Type_` stands for its field `Type`). -/
structure RktRocket where
  Id : String
  Name : String
  Type_ : String
  deriving DecidableEq, Repr

/-- The protobuf message `rkt.GetRocketRequest`. -/
structure GetRocketRequest where
  Id : String
  deriving DecidableEq, Repr

/-- The protobuf message `rkt.GetRocketResponse`; `Rocket` is a pointer, `none` is nil. -/
structure GetRocketResponse where
  Rocket : Option RktRocket
  deriving DecidableEq, Repr

/-- The protobuf message `rkt.AddRocketRequest`; `Rocket` is a pointer, `none` is nil. -/
structure AddRocketRequest where
  Rocket : Option RktRocket
  deriving DecidableEq, Repr

/-- The protobuf message `rkt.AddRocketResponse`. -/
structure AddRocketResponse where
  Rocket : Option RktRocket
  deriving DecidableEq, Repr

/-- The protobuf message `rkt.DeleteRocketRequest`; `Rocket` is a pointer, `none` is nil. -/
structure DeleteRocketRequest where
  Rocket : Option RktRocket
  deriving DecidableEq, Repr

/-- The protobuf message `rkt.DeleteRocketResponse`. -/
structure DeleteRocketResponse where
  Status : String
  deriving DecidableEq, Repr

/-- The empty message `&rkt.GetRocketResponse{}`. -/
def GetRocketResponse.zero : GetRocketResponse :=
  ⟨none⟩

/-- The empty message `&rkt.AddRocketResponse{}`. -/
def AddRocketResponse.zero : AddRocketResponse :=
  ⟨none⟩

/-- The empty message `&rkt.DeleteRocketResponse{}`. -/
def DeleteRocketResponse.zero : DeleteRocketResponse :=
  ⟨""⟩

/-! ## Traces and outcomes -/

/-- What a function does besides returning: a line written with `log.Print`/`log.Printf`,
an operation of the `RocketService` invoked by a handler, or a statement the store issues
against the database. -/
inductive Event
  | log (line : String)
  | GetRocketByID (id : String)
  | InsertRocket (rkt : Rocket)
  | DeleteRocket (id : String)
  | QueryRow (id : String)
  | NamedQuery (rkt : Rocket)
  | Exec (uid : UUID)
  deriving DecidableEq, Repr

/-- Whether an event is an invocation of a `RocketService` operation. -/
def Event.isServiceCall : Event → Bool
  | .GetRocketByID _ => true
  | .InsertRocket _ => true
  | .DeleteRocket _ => true
  | _ => false

/-- Whether an event is a statement issued against the database. -/
def Event.isStatement : Event → Bool
  | .QueryRow _ => true
  | .NamedQuery _ => true
  | .Exec _ => true
  | _ => false

/-- The service invocations of a trace, in order. -/
def serviceCalls (t : List Event) : List Event :=
  t.filter Event.isServiceCall

/-- The database statements of a trace, in order. -/
def statements (t : List Event) : List Event :=
  t.filter Event.isStatement

/-- How a handler call ends: it returns its `(response, error)` pair, or it aborts on a
nil pointer dereference and returns nothing. -/
inductive Outcome (ρ : Type)
  | returned (resp : ρ) (err : Option GoError)
  | nilDeref
  deriving DecidableEq, Repr

/-- A run of a function: what it produced, the collaborator's final state, and the trace. -/
structure Run (σ α : Type) where
  out : α
  st : σ
  trace : List Event

/-! ## The handler (`internal/transport/grpc/handler.go`) -/

/-- The interface `RocketService`, over the implementation's state `σ`. -/
structure RocketService (σ : Type) where
  GetRocketByID : String → σ → (Rocket × Option GoError) × σ
  InsertRocket : Rocket → σ → (Rocket × Option GoError) × σ
  DeleteRocket : String → σ → Option GoError × σ

/-- The struct `Handler`. -/
structure Handler (σ : Type) where
  RocketService : RocketService σ

/-- The constructor `New` of the handler package. -/
def grpc.New {σ : Type} (rktService : RocketService σ) : Handler σ :=
  ⟨rktService⟩

/-- The method `Handler.GetRocket`; `parse` is `uuid.Parse`. -/
def Handler.GetRocket {σ : Type} (parse : String → UUID × Option GoError) (h : Handler σ)
    (req : GetRocketRequest) (s : σ) : Run σ (Outcome GetRocketResponse) :=
  let t0 := [Event.log "Get Rocket gRPC Endpoint Hit"]
  match (parse req.Id).2 with
  | some err =>
    let t1 := t0 ++ [Event.log ("Given UUID is not valid: " ++ err.Error)]
    let errorStatus := status.New Code.InvalidArgument "UUID is not valid"
    match errorStatus.WithDetails
        [Detail.BadRequest [{ Field := "id", Description := "UUID is not valid" }]] with
    | .error err =>
      ⟨.returned GetRocketResponse.zero (some err), s,
        t1 ++ [Event.log ("Error adding details to error status: " ++ err.Error)]⟩
    | .ok details => ⟨.returned GetRocketResponse.zero details.Err, s, t1⟩
  | none =>
    let t1 := t0 ++ [Event.GetRocketByID req.Id]
    match h.RocketService.GetRocketByID req.Id s with
    | ((_, some err), s1) =>
      ⟨.returned GetRocketResponse.zero (status.Error Code.Internal "internal server error"), s1,
        t1 ++ [Event.log ("Failed to retrieve rocket by ID: " ++ err.Error)]⟩
    | ((rocket, none), s1) =>
      ⟨.returned ⟨some { Id := rocket.ID, Name := rocket.Name, Type_ := rocket.Type_ }⟩ none, s1, t1⟩

/-- The method `Handler.AddRocket`; `parse` is `uuid.Parse`. -/
def Handler.AddRocket {σ : Type} (parse : String → UUID × Option GoError) (h : Handler σ)
    (req : AddRocketRequest) (s : σ) : Run σ (Outcome AddRocketResponse) :=
  let t0 := [Event.log "Add Rocket gRPC endpoint hit"]
  match req.Rocket with
  | none => ⟨.nilDeref, s, t0⟩
  | some reqRocket =>
    match (parse reqRocket.Id).2 with
    | some _ =>
      let errorStatus := status.Error Code.InvalidArgument "UUID is not valid"
      ⟨.returned AddRocketResponse.zero errorStatus, s,
        t0 ++ [Event.log "Given UUID is not valid"]⟩
    | none =>
      let arg : Rocket := { ID := reqRocket.Id, Type_ := reqRocket.Type_, Name := reqRocket.Name }
      let t1 := t0 ++ [Event.InsertRocket arg]
      match h.RocketService.InsertRocket arg s with
      | ((_, some err), s1) =>
        ⟨.returned AddRocketResponse.zero (some err), s1,
          t1 ++ [Event.log "failed to insert rocket into database"]⟩
      | ((newRkt, none), s1) =>
        ⟨.returned ⟨some { Id := newRkt.ID, Type_ := newRkt.Type_, Name := newRkt.Name }⟩ none, s1, t1⟩

/-- The method `Handler.DeleteRocket`. -/
def Handler.DeleteRocket {σ : Type} (h : Handler σ) (req : DeleteRocketRequest) (s : σ) :
    Run σ (Outcome DeleteRocketResponse) :=
  let t0 := [Event.log "delete rocket gRPC endpoint hit"]
  match req.Rocket with
  | none => ⟨.nilDeref, s, t0⟩
  | some reqRocket =>
    let t1 := t0 ++ [Event.DeleteRocket reqRocket.Id]
    match h.RocketService.DeleteRocket reqRocket.Id s with
    | (some err, s1) => ⟨.returned DeleteRocketResponse.zero (some err), s1, t1⟩
    | (none, s1) => ⟨.returned ⟨"successfully delete rocket"⟩ none, s1, t1⟩

/-! ## The store (`internal/db/db.go`) -/

/-- The operations of `*sqlx.DB` the store uses, over the database state `δ`:
`QueryRow` is the `SELECT id, type, name ... where id=$1` followed by `row.Scan` into the
three fields of a rocket, `NamedQuery` the `INSERT INTO rockets` bound to a rocket (the
returned rows are dropped by the caller), `Exec` the `DELETE FROM rockets where id = $1`
(the returned result is dropped by the caller). -/
structure SqlDB (δ : Type) where
  QueryRow : String → δ → Except GoError Rocket × δ
  NamedQuery : Rocket → δ → Option GoError × δ
  Exec : UUID → δ → Option GoError × δ

/-- The struct `Store`. -/
structure Store (δ : Type) where
  db : SqlDB δ

/-- The method `Store.GetRocketByID`. -/
def Store.GetRocketByID {δ : Type} (s : Store δ) (id : String) (d : δ) :
    Run δ (Rocket × Option GoError) :=
  let t0 := [Event.QueryRow id]
  match s.db.QueryRow id d with
  | (.error err, d1) => ⟨(Rocket.zero, some err), d1, t0 ++ [Event.log err.Error]⟩
  | (.ok rkt, d1) => ⟨(rkt, none), d1, t0⟩

/-- The method `Store.InsertRocket`. -/
def Store.InsertRocket {δ : Type} (s : Store δ) (rkt : Rocket) (d : δ) :
    Run δ (Rocket × Option GoError) :=
  let t0 := [Event.NamedQuery rkt]
  match s.db.NamedQuery rkt d with
  | (some _, d1) => ⟨(Rocket.zero, some (GoError.plain "failed to insert into database")), d1, t0⟩
  | (none, d1) => ⟨({ ID := rkt.ID, Type_ := rkt.Type_, Name := rkt.Name }, none), d1, t0⟩

/-- The method `Store.DeleteRocket`; `fromString` is `uuid.FromString`. -/
def Store.DeleteRocket {δ : Type} (fromString : String → UUID × Option GoError) (s : Store δ)
    (id : String) (d : δ) : Run δ (Option GoError) :=
  match fromString id with
  | (_, some err) => ⟨some err, d, []⟩
  | (uid, none) =>
    match s.db.Exec uid d with
    | (some err, d1) => ⟨some err, d1, [Event.Exec uid]⟩
    | (none, d1) => ⟨none, d1, [Event.Exec uid]⟩

/-! ## The service between handler and store, and a map-backed database -/

/-- Modelled from the spec: the service of `internal/rocket` that `main.go` builds with
`rocket.New(rocketStore)` and hands to the handler; its source is not among the files.
§4.2: it performs no validation of its own and is a pass-through orchestrator, so each
operation forwards to the store operation of the same name and returns what that returns. -/
def rocket.New {δ : Type} (fromString : String → UUID × Option GoError) (store : Store δ) :
    RocketService δ where
  GetRocketByID id d := ((store.GetRocketByID id d).out, (store.GetRocketByID id d).st)
  InsertRocket rkt d := ((store.InsertRocket rkt d).out, (store.InsertRocket rkt d).st)
  DeleteRocket id d :=
    ((store.DeleteRocket fromString id d).out, (store.DeleteRocket fromString id d).st)

/-- State of the map-backed database: the record stored under each id, if any. -/
abbrev MapDB := String → Option Rocket

/-- Modelled from the spec: the persistence collaborator of §4.3 over a map from id to
record. Fetch-by-id returns the stored record or a not-found error; insert stores the
record under its id and fails when the id is already present. The delete statement is
left as the parameter `exec`. -/
def mapDB (exec : UUID → MapDB → Option GoError × MapDB) : SqlDB MapDB where
  QueryRow id m :=
    match m id with
    | some r => (.ok r, m)
    | none => (.error (GoError.plain "sql: no rows in result set"), m)
  NamedQuery rkt m :=
    match m rkt.ID with
    | some _ => (some (GoError.plain "duplicate key value violates unique constraint"), m)
    | none => (none, fun k => if k = rkt.ID then some rkt else m k)
  Exec := exec

/-- The server as `main.go` wires it: a handler over the service over a store. -/
def server {δ : Type} (fromString : String → UUID × Option GoError) (db : SqlDB δ) :
    Handler δ :=
  grpc.New (rocket.New fromString ⟨db⟩)

/-! ## A concrete UUID parser -/

/-- Value of a hexadecimal digit. -/
def hexVal (c : Char) : Option Nat :=
  if 48 ≤ c.toNat ∧ c.toNat ≤ 57 then some (c.toNat - 48)
  else if 97 ≤ c.toNat ∧ c.toNat ≤ 102 then some (c.toNat - 87)
  else if 65 ≤ c.toNat ∧ c.toNat ≤ 70 then some (c.toNat - 55)
  else none

/-- Bytes of a string of hexadecimal digit pairs. -/
def hexBytes : List Char → Option (List Nat)
  | [] => some []
  | [_] => none
  | a :: b :: rest =>
    match hexVal a, hexVal b, hexBytes rest with
    | some x, some y, some bs => some ((16 * x + y) :: bs)
    | _, _, _ => none

/-- An instance of the parser parameter: it accepts exactly the hyphenated form
`xxxxxxxx-xxxx-xxxx-xxxx-xxxxxxxxxxxx` of 36 characters, which both UUID libraries accept. -/
def parseCanonical (s : String) : UUID × Option GoError :=
  let cs := s.toList
  if cs.length = 36 ∧ cs[8]? = some '-' ∧ cs[13]? = some '-' ∧ cs[18]? = some '-'
      ∧ cs[23]? = some '-' then
    match hexBytes ((((cs.eraseIdx 23).eraseIdx 18).eraseIdx 13).eraseIdx 8) with
    | some bs => (⟨bs⟩, none)
    | none => (⟨[]⟩, some (GoError.plain "invalid UUID format"))
  else
    (⟨[]⟩, some (GoError.plain "invalid UUID format"))

/-- A service that finds nothing and refuses every write, over a counter of the calls
it received. -/
def failingService : RocketService Nat where
  GetRocketByID _ n := ((Rocket.zero, some (GoError.plain "sql: no rows in result set")), n + 1)
  InsertRocket _ n := ((Rocket.zero, some (GoError.plain "failed to insert into database")), n + 1)
  DeleteRocket _ n := (some (GoError.plain "connection refused"), n + 1)

/-- A service that accepts every call, over a counter of the calls it received. -/
def acceptingService : RocketService Nat where
  GetRocketByID id n := ((⟨id, "Falcon", "rocket"⟩, none), n + 1)
  InsertRocket rkt n := ((rkt, none), n + 1)
  DeleteRocket _ n := (none, n + 1)

/-- A service whose every operation reports a NOT_FOUND status, over no state. -/
def notFoundService : RocketService Unit where
  GetRocketByID _ u := ((Rocket.zero, some (GoError.status ⟨Code.NotFound, "rocket not found", []⟩)), u)
  InsertRocket _ u := ((Rocket.zero, some (GoError.status ⟨Code.NotFound, "rocket not found", []⟩)), u)
  DeleteRocket _ u := (some (GoError.status ⟨Code.NotFound, "rocket not found", []⟩), u)

/-- Modelled from the spec: the delete statement of the persistence collaborator of §4.3
over the map: it removes the record whose id reads as the given UUID and reports no error,
also when it matches no record. -/
def mapExec (uid : UUID) (m : MapDB) : Option GoError × MapDB :=
  (none, fun k => if parseCanonical k = (uid, none) then none else m k)

/-- The database with no record stored. -/
def emptyMap : MapDB :=
  fun _ => none

/-- A database that cannot be reached: every statement fails; the state counts the
statements attempted. -/
def downDB : SqlDB Nat where
  QueryRow _ n := (.error (GoError.plain "dial tcp: connection refused"), n + 1)
  NamedQuery _ n := (some (GoError.plain "dial tcp: connection refused"), n + 1)
  Exec _ n := (some (GoError.plain "dial tcp: connection refused"), n + 1)

/-! ## Handler: identifier validation -/

/-- C1: for every parser, every service implementation and every request whose id does
not parse as a UUID, `GetRocket` returns the empty response with an INVALID_ARGUMENT
status whose message is "UUID is not valid" and whose details are exactly one bad-request
detail with exactly one field violation, field "id" and description "UUID is not valid";
no operation of the service is invoked and the service's state is untouched. -/
theorem GetRocket_invalid_id {σ : Type} (parse : String → UUID × Option GoError)
    (h : Handler σ) (req : GetRocketRequest) (s : σ) (hp : (parse req.Id).2 ≠ none) :
    (h.GetRocket parse req s).out =
        Outcome.returned GetRocketResponse.zero
          (some (GoError.status ⟨Code.InvalidArgument, "UUID is not valid",
            [Detail.BadRequest [⟨"id", "UUID is not valid"⟩]]⟩))
      ∧ serviceCalls (h.GetRocket parse req s).trace = []
      ∧ (h.GetRocket parse req s).st = s := by
  cases hq : (parse req.Id).2 with
  | none => exact absurd hq hp
  | some e =>
    simp [Handler.GetRocket, hq, status.New, Status.WithDetails, Status.Err, serviceCalls,
      Event.isServiceCall]

/-- Witness of C1 at the id "not-a-uuid", over a service that counts its calls. -/
theorem GetRocket_invalid_id_witness :
    (parseCanonical "not-a-uuid").2 ≠ none
      ∧ ((grpc.New acceptingService).GetRocket parseCanonical ⟨"not-a-uuid"⟩ 0).out =
        Outcome.returned GetRocketResponse.zero
          (some (GoError.status ⟨Code.InvalidArgument, "UUID is not valid",
            [Detail.BadRequest [⟨"id", "UUID is not valid"⟩]]⟩))
      ∧ serviceCalls ((grpc.New acceptingService).GetRocket parseCanonical ⟨"not-a-uuid"⟩ 0).trace
          = []
      ∧ ((grpc.New acceptingService).GetRocket parseCanonical ⟨"not-a-uuid"⟩ 0).st = 0 :=
  ⟨by decide, GetRocket_invalid_id parseCanonical (grpc.New acceptingService) ⟨"not-a-uuid"⟩ 0
    (by decide)⟩

/-- C2: for every request id that parses and every error the service's `GetRocketByID`
returns, `GetRocket` returns the empty response and the INTERNAL status with the fixed
message "internal server error" and no details; two runs against different services,
states, ids and underlying errors return identical results. -/
theorem GetRocket_service_error_generic {σ τ : Type} (parse : String → UUID × Option GoError)
    (h1 : Handler σ) (h2 : Handler τ) (req1 req2 : GetRocketRequest) (s1 : σ) (s2 : τ)
    (hp1 : (parse req1.Id).2 = none) (hp2 : (parse req2.Id).2 = none)
    (he1 : (h1.RocketService.GetRocketByID req1.Id s1).1.2 ≠ none)
    (he2 : (h2.RocketService.GetRocketByID req2.Id s2).1.2 ≠ none) :
    (h1.GetRocket parse req1 s1).out =
        Outcome.returned GetRocketResponse.zero
          (some (GoError.status ⟨Code.Internal, "internal server error", []⟩))
      ∧ (h1.GetRocket parse req1 s1).out = (h2.GetRocket parse req2 s2).out := by
  have key : ∀ {ρ : Type} (h : Handler ρ) (req : GetRocketRequest) (s : ρ),
      (parse req.Id).2 = none → (h.RocketService.GetRocketByID req.Id s).1.2 ≠ none →
      (h.GetRocket parse req s).out =
        Outcome.returned GetRocketResponse.zero
          (some (GoError.status ⟨Code.Internal, "internal server error", []⟩)) := by
    intro ρ h req s hp he
    rcases hr : h.RocketService.GetRocketByID req.Id s with ⟨⟨rocket, err⟩, s1⟩
    rw [hr] at he
    cases err with
    | none => exact absurd rfl he
    | some e => simp [Handler.GetRocket, hp, hr, status.Error, status.New, Status.Err]
  exact ⟨key h1 req1 s1 hp1 he1, (key h1 req1 s1 hp1 he1).trans (key h2 req2 s2 hp2 he2).symm⟩

/-- Witness of C2: a valid id against a service failing with a driver error, and another
valid id against a service failing with a NOT_FOUND status. -/
theorem GetRocket_service_error_generic_witness :
    ((grpc.New failingService).GetRocket parseCanonical
        ⟨"11111111-1111-1111-1111-111111111111"⟩ 0).out =
        Outcome.returned GetRocketResponse.zero
          (some (GoError.status ⟨Code.Internal, "internal server error", []⟩))
      ∧ ((grpc.New failingService).GetRocket parseCanonical
          ⟨"11111111-1111-1111-1111-111111111111"⟩ 0).out =
        ((grpc.New notFoundService).GetRocket parseCanonical
          ⟨"22222222-2222-2222-2222-222222222222"⟩ ()).out :=
  GetRocket_service_error_generic parseCanonical (grpc.New failingService)
    (grpc.New notFoundService) ⟨"11111111-1111-1111-1111-111111111111"⟩
    ⟨"22222222-2222-2222-2222-222222222222"⟩ 0 () (by decide) (by decide) (by decide) (by decide)

/-- C3: for every parser, every service implementation and every request whose rocket
carries an id that does not parse as a UUID, whatever its name and type, `AddRocket`
returns the empty response with an INVALID_ARGUMENT status; no operation of the service is
invoked and the service's state is untouched. -/
theorem AddRocket_invalid_id {σ : Type} (parse : String → UUID × Option GoError)
    (h : Handler σ) (id name type : String) (s : σ) (hp : (parse id).2 ≠ none) :
    (∃ st : Status, st.code = Code.InvalidArgument
        ∧ (h.AddRocket parse ⟨some ⟨id, name, type⟩⟩ s).out =
          Outcome.returned AddRocketResponse.zero (some (GoError.status st)))
      ∧ serviceCalls (h.AddRocket parse ⟨some ⟨id, name, type⟩⟩ s).trace = []
      ∧ (h.AddRocket parse ⟨some ⟨id, name, type⟩⟩ s).st = s := by
  cases hq : (parse id).2 with
  | none => exact absurd hq hp
  | some e =>
    refine ⟨⟨⟨Code.InvalidArgument, "UUID is not valid", []⟩, rfl, ?_⟩, ?_, ?_⟩ <;>
      simp [Handler.AddRocket, hq, status.Error, status.New, Status.Err, serviceCalls,
        Event.isServiceCall]

/-- Witness of C3 at the id "not-a-uuid", over a service that counts its calls. -/
theorem AddRocket_invalid_id_witness :
    (∃ st : Status, st.code = Code.InvalidArgument
        ∧ ((grpc.New acceptingService).AddRocket parseCanonical
            ⟨some ⟨"not-a-uuid", "Saturn V", "heavy"⟩⟩ 0).out =
          Outcome.returned AddRocketResponse.zero (some (GoError.status st)))
      ∧ serviceCalls ((grpc.New acceptingService).AddRocket parseCanonical
          ⟨some ⟨"not-a-uuid", "Saturn V", "heavy"⟩⟩ 0).trace = []
      ∧ ((grpc.New acceptingService).AddRocket parseCanonical
          ⟨some ⟨"not-a-uuid", "Saturn V", "heavy"⟩⟩ 0).st = 0 :=
  AddRocket_invalid_id parseCanonical (grpc.New acceptingService) "not-a-uuid" "Saturn V" "heavy"
    0 (by decide)

/-- C4, what the code does: for every request whose rocket id does not parse, the status
`AddRocket` returns is INVALID_ARGUMENT with message "UUID is not valid" and an empty list
of details, so it names no field; the status `GetRocket` returns for the same id carries
the field violation on "id", and the two statuses differ. -/
theorem AddRocket_invalid_id_no_field_violation {σ : Type}
    (parse : String → UUID × Option GoError) (h : Handler σ) (id name type : String) (s : σ)
    (hp : (parse id).2 ≠ none) :
    (h.AddRocket parse ⟨some ⟨id, name, type⟩⟩ s).out =
        Outcome.returned AddRocketResponse.zero
          (some (GoError.status ⟨Code.InvalidArgument, "UUID is not valid", []⟩))
      ∧ (h.GetRocket parse ⟨id⟩ s).out =
        Outcome.returned GetRocketResponse.zero
          (some (GoError.status ⟨Code.InvalidArgument, "UUID is not valid",
            [Detail.BadRequest [⟨"id", "UUID is not valid"⟩]]⟩))
      ∧ (GoError.status ⟨Code.InvalidArgument, "UUID is not valid", []⟩ : GoError) ≠
        GoError.status ⟨Code.InvalidArgument, "UUID is not valid",
          [Detail.BadRequest [⟨"id", "UUID is not valid"⟩]]⟩ := by
  cases hq : (parse id).2 with
  | none => exact absurd hq hp
  | some e =>
    refine ⟨?_, ?_, by decide⟩
    · simp [Handler.AddRocket, hq, status.Error, status.New, Status.Err]
    · simp [Handler.GetRocket, hq, status.New, Status.WithDetails, Status.Err]

/-- The failing input of C4: the rocket with id "not-a-uuid", name "Saturn V" and type
"heavy". -/
theorem AddRocket_invalid_id_no_field_violation_witness :
    ((grpc.New acceptingService).AddRocket parseCanonical
        ⟨some ⟨"not-a-uuid", "Saturn V", "heavy"⟩⟩ 0).out =
        Outcome.returned AddRocketResponse.zero
          (some (GoError.status ⟨Code.InvalidArgument, "UUID is not valid", []⟩))
      ∧ ((grpc.New acceptingService).GetRocket parseCanonical ⟨"not-a-uuid"⟩ 0).out =
        Outcome.returned GetRocketResponse.zero
          (some (GoError.status ⟨Code.InvalidArgument, "UUID is not valid",
            [Detail.BadRequest [⟨"id", "UUID is not valid"⟩]]⟩))
      ∧ (GoError.status ⟨Code.InvalidArgument, "UUID is not valid", []⟩ : GoError) ≠
        GoError.status ⟨Code.InvalidArgument, "UUID is not valid",
          [Detail.BadRequest [⟨"id", "UUID is not valid"⟩]]⟩ :=
  AddRocket_invalid_id_no_field_violation parseCanonical (grpc.New acceptingService)
    "not-a-uuid" "Saturn V" "heavy" 0 (by decide)

/-! ## Handler: delegation to the service -/

/-- C5: for every request whose rocket id parses and every error `e` the service's
`InsertRocket` returns, `AddRocket` returns the empty response together with exactly `e`;
the service is invoked once, with a rocket whose ID, Type and Name are the request's id,
type and name. -/
theorem AddRocket_insert_error_unchanged {σ : Type} (parse : String → UUID × Option GoError)
    (h : Handler σ) (id name type : String) (s : σ) (e : GoError)
    (hp : (parse id).2 = none)
    (he : (h.RocketService.InsertRocket ⟨id, name, type⟩ s).1.2 = some e) :
    (h.AddRocket parse ⟨some ⟨id, name, type⟩⟩ s).out =
        Outcome.returned AddRocketResponse.zero (some e)
      ∧ ∃ arg : Rocket, arg.ID = id ∧ arg.Type_ = type ∧ arg.Name = name
        ∧ serviceCalls (h.AddRocket parse ⟨some ⟨id, name, type⟩⟩ s).trace =
          [Event.InsertRocket arg] := by
  rcases hr : h.RocketService.InsertRocket ⟨id, name, type⟩ s with ⟨⟨newRkt, err⟩, s1⟩
  rw [hr] at he
  simp only at he
  subst he
  refine ⟨?_, ⟨id, name, type⟩, rfl, rfl, rfl, ?_⟩ <;>
    simp [Handler.AddRocket, hp, hr, serviceCalls, Event.isServiceCall]

/-- Witness of C5: a valid id against a service whose insert fails. -/
theorem AddRocket_insert_error_unchanged_witness :
    ((grpc.New failingService).AddRocket parseCanonical
        ⟨some ⟨"11111111-1111-1111-1111-111111111111", "Saturn V", "heavy"⟩⟩ 0).out =
        Outcome.returned AddRocketResponse.zero
          (some (GoError.plain "failed to insert into database"))
      ∧ ∃ arg : Rocket, arg.ID = "11111111-1111-1111-1111-111111111111" ∧ arg.Type_ = "heavy"
        ∧ arg.Name = "Saturn V"
        ∧ serviceCalls ((grpc.New failingService).AddRocket parseCanonical
            ⟨some ⟨"11111111-1111-1111-1111-111111111111", "Saturn V", "heavy"⟩⟩ 0).trace =
          [Event.InsertRocket arg] :=
  AddRocket_insert_error_unchanged parseCanonical (grpc.New failingService)
    "11111111-1111-1111-1111-111111111111" "Saturn V" "heavy" 0
    (GoError.plain "failed to insert into database") (by decide) (by decide)

/-- C6: for every request with a rocket sub-message and every id string, `DeleteRocket`
takes no parser and checks nothing: it invokes the service's `DeleteRocket` exactly once,
with that id, and leaves the state the service left; when the service returns nil the
response status is "successfully delete rocket" with no error, and when the service returns
an error `e` the handler returns the empty response with exactly `e`. -/
theorem DeleteRocket_delegates {σ : Type} (h : Handler σ) (id name type : String) (s : σ) :
    serviceCalls (h.DeleteRocket ⟨some ⟨id, name, type⟩⟩ s).trace = [Event.DeleteRocket id]
      ∧ (h.DeleteRocket ⟨some ⟨id, name, type⟩⟩ s).st = (h.RocketService.DeleteRocket id s).2
      ∧ ((h.RocketService.DeleteRocket id s).1 = none →
          (h.DeleteRocket ⟨some ⟨id, name, type⟩⟩ s).out =
            Outcome.returned ⟨"successfully delete rocket"⟩ none)
      ∧ (∀ e : GoError, (h.RocketService.DeleteRocket id s).1 = some e →
          (h.DeleteRocket ⟨some ⟨id, name, type⟩⟩ s).out =
            Outcome.returned DeleteRocketResponse.zero (some e)) := by
  rcases hr : h.RocketService.DeleteRocket id s with ⟨err, s1⟩
  cases err with
  | none => simp [Handler.DeleteRocket, hr, serviceCalls, Event.isServiceCall]
  | some e => simp [Handler.DeleteRocket, hr, serviceCalls, Event.isServiceCall]

/-- Witness of C6: the id "not-a-uuid" reaches an accepting service and succeeds; a
well-formed id against a failing service returns that service's error. -/
theorem DeleteRocket_delegates_witness :
    serviceCalls ((grpc.New acceptingService).DeleteRocket ⟨some ⟨"not-a-uuid", "", ""⟩⟩ 0).trace
        = [Event.DeleteRocket "not-a-uuid"]
      ∧ ((grpc.New acceptingService).DeleteRocket ⟨some ⟨"not-a-uuid", "", ""⟩⟩ 0).out =
        Outcome.returned ⟨"successfully delete rocket"⟩ none
      ∧ ((grpc.New failingService).DeleteRocket
          ⟨some ⟨"11111111-1111-1111-1111-111111111111", "", ""⟩⟩ 0).out =
        Outcome.returned DeleteRocketResponse.zero (some (GoError.plain "connection refused")) :=
  ⟨(DeleteRocket_delegates (grpc.New acceptingService) "not-a-uuid" "" "" 0).1,
    (DeleteRocket_delegates (grpc.New acceptingService) "not-a-uuid" "" "" 0).2.2.1 (by decide),
    (DeleteRocket_delegates (grpc.New failingService) "11111111-1111-1111-1111-111111111111"
      "" "" 0).2.2.2 (GoError.plain "connection refused") (by decide)⟩

/-- C10: a request whose rocket sub-message is nil makes `AddRocket` and `DeleteRocket`
abort on the dereference: neither returns a response or a status, no operation of the
service is invoked and its state is untouched. A request whose rocket sub-message is
present makes both handlers return a response and an error value. -/
theorem nil_rocket_aborts {σ : Type} (parse : String → UUID × Option GoError) (h : Handler σ)
    (s : σ) :
    ((h.AddRocket parse ⟨none⟩ s).out = Outcome.nilDeref
        ∧ serviceCalls (h.AddRocket parse ⟨none⟩ s).trace = []
        ∧ (h.AddRocket parse ⟨none⟩ s).st = s)
      ∧ ((h.DeleteRocket ⟨none⟩ s).out = Outcome.nilDeref
        ∧ serviceCalls (h.DeleteRocket ⟨none⟩ s).trace = []
        ∧ (h.DeleteRocket ⟨none⟩ s).st = s)
      ∧ (∀ rkt : RktRocket, ∃ resp err,
          (h.AddRocket parse ⟨some rkt⟩ s).out = Outcome.returned resp err)
      ∧ (∀ rkt : RktRocket, ∃ resp err,
          (h.DeleteRocket ⟨some rkt⟩ s).out = Outcome.returned resp err) := by
  refine ⟨?_, ?_, ?_, ?_⟩
  · simp [Handler.AddRocket, serviceCalls, Event.isServiceCall]
  · simp [Handler.DeleteRocket, serviceCalls, Event.isServiceCall]
  · intro rkt
    cases hq : (parse rkt.Id).2 with
    | some e => exact ⟨_, _, by simp only [Handler.AddRocket, hq]; rfl⟩
    | none =>
      rcases hr : h.RocketService.InsertRocket ⟨rkt.Id, rkt.Name, rkt.Type_⟩ s with
        ⟨⟨newRkt, err⟩, s1⟩
      cases err with
      | none => exact ⟨_, _, by simp only [Handler.AddRocket, hq, hr]; rfl⟩
      | some e => exact ⟨_, _, by simp only [Handler.AddRocket, hq, hr]; rfl⟩
  · intro rkt
    rcases hr : h.RocketService.DeleteRocket rkt.Id s with ⟨err, s1⟩
    cases err with
    | none => exact ⟨_, _, by simp only [Handler.DeleteRocket, hr]; rfl⟩
    | some e => exact ⟨_, _, by simp only [Handler.DeleteRocket, hr]; rfl⟩

/-! ## Store -/

/-- C8: for every id that `uuid.FromString` rejects, `Store.DeleteRocket` returns the
parse error itself, issues no statement and leaves the database as it was; for every id
it accepts, the store issues exactly one delete, keyed by the parsed UUID, and returns
that statement's error, nil when the statement succeeds. -/
theorem Store_DeleteRocket_spec {δ : Type} (fromString : String → UUID × Option GoError)
    (s : Store δ) (id : String) (d : δ) :
    (∀ e : GoError, (fromString id).2 = some e →
        (s.DeleteRocket fromString id d).out = some e
          ∧ statements (s.DeleteRocket fromString id d).trace = []
          ∧ (s.DeleteRocket fromString id d).st = d)
      ∧ ((fromString id).2 = none →
        statements (s.DeleteRocket fromString id d).trace = [Event.Exec (fromString id).1]
          ∧ (s.DeleteRocket fromString id d).out = (s.db.Exec (fromString id).1 d).1
          ∧ (s.DeleteRocket fromString id d).st = (s.db.Exec (fromString id).1 d).2) := by
  rcases hf : fromString id with ⟨uid, perr⟩
  cases perr with
  | some pe => simp [Store.DeleteRocket, hf, statements]
  | none =>
    rcases hx : s.db.Exec uid d with ⟨err, d1⟩
    cases err with
    | none => simp [Store.DeleteRocket, hf, hx, statements, Event.isStatement]
    | some e => simp [Store.DeleteRocket, hf, hx, statements, Event.isStatement]

/-- Witness of C8: "not-a-uuid" is rejected before any statement; a well-formed id leads
to one delete, whose error (unreachable database) or success (map) is returned. -/
theorem Store_DeleteRocket_spec_witness :
    ((Store.mk downDB).DeleteRocket parseCanonical "not-a-uuid" 0).out =
        some (GoError.plain "invalid UUID format")
      ∧ statements ((Store.mk downDB).DeleteRocket parseCanonical "not-a-uuid" 0).trace = []
      ∧ ((Store.mk downDB).DeleteRocket parseCanonical "not-a-uuid" 0).st = 0
      ∧ statements ((Store.mk downDB).DeleteRocket parseCanonical
          "11111111-1111-1111-1111-111111111111" 0).trace =
        [Event.Exec ⟨[17, 17, 17, 17, 17, 17, 17, 17, 17, 17, 17, 17, 17, 17, 17, 17]⟩]
      ∧ ((Store.mk downDB).DeleteRocket parseCanonical
          "11111111-1111-1111-1111-111111111111" 0).out =
        some (GoError.plain "dial tcp: connection refused")
      ∧ ((Store.mk (mapDB mapExec)).DeleteRocket parseCanonical
          "11111111-1111-1111-1111-111111111111" emptyMap).out = none :=
  ⟨((Store_DeleteRocket_spec parseCanonical (Store.mk downDB) "not-a-uuid" 0).1
      (GoError.plain "invalid UUID format") (by decide)).1,
    ((Store_DeleteRocket_spec parseCanonical (Store.mk downDB) "not-a-uuid" 0).1
      (GoError.plain "invalid UUID format") (by decide)).2.1,
    ((Store_DeleteRocket_spec parseCanonical (Store.mk downDB) "not-a-uuid" 0).1
      (GoError.plain "invalid UUID format") (by decide)).2.2,
    ((Store_DeleteRocket_spec parseCanonical (Store.mk downDB)
      "11111111-1111-1111-1111-111111111111" 0).2 (by decide)).1,
    ((Store_DeleteRocket_spec parseCanonical (Store.mk downDB)
      "11111111-1111-1111-1111-111111111111" 0).2 (by decide)).2.1,
    ((Store_DeleteRocket_spec parseCanonical (Store.mk (mapDB mapExec))
      "11111111-1111-1111-1111-111111111111" emptyMap).2 (by decide)).2.1⟩

/-- C9: for every rocket and every failure of the insert statement, `Store.InsertRocket`
returns the zero rocket and the fixed error "failed to insert into database", so two
failures with different causes, in different databases, return identical results; when the
statement succeeds it returns a rocket with the input's ID, Type and Name and no error. In
both cases exactly one insert statement is issued, bound to the input rocket. -/
theorem Store_InsertRocket_spec {δ : Type} (s : Store δ) (rkt : Rocket) (d : δ) :
    (∀ cause : GoError, (s.db.NamedQuery rkt d).1 = some cause →
        (s.InsertRocket rkt d).out =
          (Rocket.zero, some (GoError.plain "failed to insert into database"))
        ∧ ∀ (γ : Type) (s2 : Store γ) (rkt2 : Rocket) (d2 : γ) (cause2 : GoError),
          (s2.db.NamedQuery rkt2 d2).1 = some cause2 →
          (s2.InsertRocket rkt2 d2).out = (s.InsertRocket rkt d).out)
      ∧ ((s.db.NamedQuery rkt d).1 = none →
        (s.InsertRocket rkt d).out.2 = none
          ∧ (s.InsertRocket rkt d).out.1.ID = rkt.ID
          ∧ (s.InsertRocket rkt d).out.1.Type_ = rkt.Type_
          ∧ (s.InsertRocket rkt d).out.1.Name = rkt.Name)
      ∧ statements (s.InsertRocket rkt d).trace = [Event.NamedQuery rkt] := by
  have fail : ∀ (γ : Type) (s2 : Store γ) (rkt2 : Rocket) (d2 : γ) (cause2 : GoError),
      (s2.db.NamedQuery rkt2 d2).1 = some cause2 →
      (s2.InsertRocket rkt2 d2).out =
        (Rocket.zero, some (GoError.plain "failed to insert into database")) := by
    intro γ s2 rkt2 d2 cause2 hc
    rcases hq : s2.db.NamedQuery rkt2 d2 with ⟨err, d3⟩
    rw [hq] at hc
    simp only at hc
    subst hc
    simp [Store.InsertRocket, hq]
  refine ⟨?_, ?_, ?_⟩
  · intro cause hc
    refine ⟨fail δ s rkt d cause hc, ?_⟩
    intro γ s2 rkt2 d2 cause2 hc2
    rw [fail γ s2 rkt2 d2 cause2 hc2, fail δ s rkt d cause hc]
  · intro hn
    rcases hq : s.db.NamedQuery rkt d with ⟨err, d1⟩
    rw [hq] at hn
    simp only at hn
    subst hn
    simp [Store.InsertRocket, hq]
  · rcases hq : s.db.NamedQuery rkt d with ⟨err, d1⟩
    cases err with
    | none => simp [Store.InsertRocket, hq, statements, Event.isStatement]
    | some e => simp [Store.InsertRocket, hq, statements, Event.isStatement]

/-- Witness of C9: an insert into an unreachable database and an insert of an id already
stored fail with the same result; an insert into the empty map succeeds. -/
theorem Store_InsertRocket_spec_witness :
    ((Store.mk downDB).InsertRocket ⟨"11111111-1111-1111-1111-111111111111", "Saturn V", "heavy"⟩
        0).out = (Rocket.zero, some (GoError.plain "failed to insert into database"))
      ∧ ((Store.mk (mapDB mapExec)).InsertRocket ⟨"a", "Falcon", "rocket"⟩
          (fun _ => some ⟨"a", "Falcon", "rocket"⟩)).out =
        ((Store.mk downDB).InsertRocket
          ⟨"11111111-1111-1111-1111-111111111111", "Saturn V", "heavy"⟩ 0).out
      ∧ ((Store.mk (mapDB mapExec)).InsertRocket
          ⟨"11111111-1111-1111-1111-111111111111", "Saturn V", "heavy"⟩ emptyMap).out.2 = none
      ∧ ((Store.mk (mapDB mapExec)).InsertRocket
          ⟨"11111111-1111-1111-1111-111111111111", "Saturn V", "heavy"⟩ emptyMap).out.1.ID =
        "11111111-1111-1111-1111-111111111111" :=
  ⟨((Store_InsertRocket_spec (Store.mk downDB)
      ⟨"11111111-1111-1111-1111-111111111111", "Saturn V", "heavy"⟩ 0).1
      (GoError.plain "dial tcp: connection refused") (by decide)).1,
    ((Store_InsertRocket_spec (Store.mk downDB)
      ⟨"11111111-1111-1111-1111-111111111111", "Saturn V", "heavy"⟩ 0).1
      (GoError.plain "dial tcp: connection refused") (by decide)).2 MapDB
      (Store.mk (mapDB mapExec)) ⟨"a", "Falcon", "rocket"⟩ (fun _ => some ⟨"a", "Falcon", "rocket"⟩)
      (GoError.plain "duplicate key value violates unique constraint") (by decide),
    ((Store_InsertRocket_spec (Store.mk (mapDB mapExec))
      ⟨"11111111-1111-1111-1111-111111111111", "Saturn V", "heavy"⟩ emptyMap).2.1
      (by decide)).1,
    ((Store_InsertRocket_spec (Store.mk (mapDB mapExec))
      ⟨"11111111-1111-1111-1111-111111111111", "Saturn V", "heavy"⟩ emptyMap).2.1
      (by decide)).2.1⟩

/-! ## Round trip through the whole server -/

/-- C7: over the map-backed database, for every id `u` that parses as a UUID and is not
yet stored, and every name and type, `AddRocket` succeeds and echoes the three fields, and
`GetRocket` of `u` in the resulting state returns a rocket with the same id, name and
type. -/
theorem AddRocket_GetRocket_roundtrip (parse fromString : String → UUID × Option GoError)
    (exec : UUID → MapDB → Option GoError × MapDB) (u name type : String) (m : MapDB)
    (hu : (parse u).2 = none) (hm : m u = none) :
    ((server fromString (mapDB exec)).AddRocket parse ⟨some ⟨u, name, type⟩⟩ m).out =
        Outcome.returned ⟨some ⟨u, name, type⟩⟩ none
      ∧ ((server fromString (mapDB exec)).GetRocket parse ⟨u⟩
          ((server fromString (mapDB exec)).AddRocket parse ⟨some ⟨u, name, type⟩⟩ m).st).out =
        Outcome.returned ⟨some ⟨u, name, type⟩⟩ none := by
  have hadd : (server fromString (mapDB exec)).AddRocket parse ⟨some ⟨u, name, type⟩⟩ m =
      ⟨Outcome.returned ⟨some ⟨u, name, type⟩⟩ none,
        fun k => if k = u then some ⟨u, name, type⟩ else m k,
        [Event.log "Add Rocket gRPC endpoint hit", Event.InsertRocket ⟨u, name, type⟩]⟩ := by
    simp [server, grpc.New, rocket.New, Handler.AddRocket, Store.InsertRocket, mapDB, hu, hm]
  rw [hadd]
  refine ⟨rfl, ?_⟩
  simp [server, grpc.New, rocket.New, Handler.GetRocket, Store.GetRocketByID, mapDB, hu]

/-- Witness of C7: id "11111111-1111-1111-1111-111111111111", name "Saturn V", type
"heavy", into the empty map. -/
theorem AddRocket_GetRocket_roundtrip_witness :
    ((server parseCanonical (mapDB mapExec)).AddRocket parseCanonical
        ⟨some ⟨"11111111-1111-1111-1111-111111111111", "Saturn V", "heavy"⟩⟩ emptyMap).out =
        Outcome.returned ⟨some ⟨"11111111-1111-1111-1111-111111111111", "Saturn V", "heavy"⟩⟩ none
      ∧ ((server parseCanonical (mapDB mapExec)).GetRocket parseCanonical
          ⟨"11111111-1111-1111-1111-111111111111"⟩
          ((server parseCanonical (mapDB mapExec)).AddRocket parseCanonical
            ⟨some ⟨"11111111-1111-1111-1111-111111111111", "Saturn V", "heavy"⟩⟩ emptyMap).st).out =
        Outcome.returned ⟨some ⟨"11111111-1111-1111-1111-111111111111", "Saturn V", "heavy"⟩⟩ none :=
  AddRocket_GetRocket_roundtrip parseCanonical parseCanonical mapExec
    "11111111-1111-1111-1111-111111111111" "Saturn V" "heavy" emptyMap (by decide) rfl
